import Mathlib

/-!
# Verification of the M22 script-execution subsystem (Snow-Sakura-CPP)

A shallow embedding of the script execution core of the M22 visual-novel
engine.  The sources at hand are `src/engine/M22Lua.cpp` (the embedded Lua
script bridge) and `include/engine/M22Engine.h` (the declarations of the
engine classes `M22Engine`, `M22Graphics`, `M22Sound`, `M22Script`,
`M22Interface`).  The implementation files of `M22Script` / `M22Engine` /
`M22Graphics` are not part of the sources; where a definition below embeds
one of those missing functions it is modelled from the specification and its
doc comment says so explicitly.  Everything else is translated directly from
the two source files.

Machine integers: the C++ `int` members are modelled as `Int`, the unsigned
index members (`Uint8 activeTransition`, `unsigned short
ACTIVE_BACKGROUND_INDEX`) as `Nat`; no arithmetic in the modelled fragment
can overflow their ranges (all values involved are small table indices), so
no explicit wrap-around is inserted.
-/

set_option autoImplicit false

/-- The `M22Script::LINETYPE` enumerator, exactly as declared in
`include/engine/M22Engine.h` lines 400-425 (23 values, in declaration
order). -/
inductive LINETYPE where
  | NEW_BACKGROUND
  | FADE_TO_BLACK
  | FADE_TO_BLACK_FANCY
  | NEW_MUSIC
  | DARK_SCREEN
  | BRIGHT_SCREEN
  | STOP_MUSIC
  | PLAY_STING
  | PLAY_STING_LOOPED
  | STOP_STING_LOOPED
  | GOTO
  | DRAW_CHARACTER
  | CLEAR_CHARACTERS
  | CLEAR_CHARACTERS_BRUTAL
  | DRAW_CHARACTER_BRUTAL
  | LOAD_SCRIPT
  | SPEECH
  | COMMENT
  | WAIT
  | EXITGAME
  | SET_ACTIVE_TRANSITION
  | EXITTOMAINMENU
  | NARRATIVE
  deriving DecidableEq, Repr, Fintype

/-- The 23 values of `M22Script::LINETYPE`, in declaration order. -/
def LINETYPE.all : List LINETYPE :=
  [.NEW_BACKGROUND, .FADE_TO_BLACK, .FADE_TO_BLACK_FANCY, .NEW_MUSIC,
   .DARK_SCREEN, .BRIGHT_SCREEN, .STOP_MUSIC, .PLAY_STING,
   .PLAY_STING_LOOPED, .STOP_STING_LOOPED, .GOTO, .DRAW_CHARACTER,
   .CLEAR_CHARACTERS, .CLEAR_CHARACTERS_BRUTAL, .DRAW_CHARACTER_BRUTAL,
   .LOAD_SCRIPT, .SPEECH, .COMMENT, .WAIT, .EXITGAME,
   .SET_ACTIVE_TRANSITION, .EXITTOMAINMENU, .NARRATIVE]

/-- A classified script line: a Command Kind (one `LINETYPE` value) together
with the operand tokens that followed the keyword.  Spec §3: "Command: a
tagged record `\x7b kind, operands \x7d`". -/
structure Command where
  kind : LINETYPE
  operands : List String
  deriving DecidableEq, Repr

/-- The CommandKind closed set as the specification names it (spec §3),
23 entries, paired with the `LINETYPE` value each one denotes in the code. -/
def specCommandKinds : List (String × LINETYPE) :=
  [("BACKGROUND_CHANGE", .NEW_BACKGROUND),
   ("FADE_BLACK", .FADE_TO_BLACK),
   ("FADE_BLACK_SLOW", .FADE_TO_BLACK_FANCY),
   ("MUSIC_CHANGE", .NEW_MUSIC),
   ("DARKEN_SCREEN", .DARK_SCREEN),
   ("BRIGHTEN_SCREEN", .BRIGHT_SCREEN),
   ("STOP_MUSIC", .STOP_MUSIC),
   ("PLAY_SFX", .PLAY_STING),
   ("PLAY_SFX_LOOPED", .PLAY_STING_LOOPED),
   ("STOP_SFX_LOOPED", .STOP_STING_LOOPED),
   ("JUMP", .GOTO),
   ("CHARACTER_ENTER", .DRAW_CHARACTER),
   ("CHARACTER_ENTER_IMMEDIATE", .DRAW_CHARACTER_BRUTAL),
   ("CLEAR_CHARACTERS", .CLEAR_CHARACTERS),
   ("CLEAR_CHARACTERS_IMMEDIATE", .CLEAR_CHARACTERS_BRUTAL),
   ("LOAD_SCRIPT", .LOAD_SCRIPT),
   ("SPEECH", .SPEECH),
   ("NARRATIVE", .NARRATIVE),
   ("COMMENT", .COMMENT),
   ("WAIT", .WAIT),
   ("EXIT_GAME", .EXITGAME),
   ("SET_TRANSITION", .SET_ACTIVE_TRANSITION),
   ("EXIT_TO_MENU", .EXITTOMAINMENU)]

/-- Modelled from the spec: the "fixed CommandKind keyword table
(case-sensitive exact match)" of the Line Classifier (spec §4.2).  The
implementation file of
`M22Script::CheckLineType` is not among the sources, so the keyword strings
are taken from the command names of the specification itself (they are the strings
its scenarios §8 use: `"BACKGROUND_CHANGE:Classroom"`, `"WAIT:1000"`,
`"JUMP:0"`, `"SET_TRANSITION:SWIPE_DOWN"`, `"EXIT_GAME"`).  `COMMENT` is the
keywordless fallback (spec §4.2: no-match lines classify as `COMMENT`), so
the table has the other 22 entries. -/
def keywordTable : List (String × LINETYPE) :=
  specCommandKinds.filter (fun p => decide (p.2 ≠ LINETYPE.COMMENT))

/-- The reserved delimiter character of the script format: the colon.  The
header declares the helper `M22Script::isColon` ("Checks and returns if the
character is a colon ( : )", `M22Engine.h:470`) and every scripted line in
the scenarios of the specification uses `:` as the delimiter. -/
def delimiter : Char := ':'

/-- Modelled from the spec: `M22Script::SplitString` (declared at
`M22Engine.h:459`, implementation not among the sources): "Splits string
into parts between specified character into an array" — the character
sequence of the line split at every occurrence of the delimiter; always at
least one (possibly empty) token. -/
def splitTokens (s : String) : List String :=
  (List.splitOn delimiter s.data).map String.mk

/-- The raw line a token sequence denotes: the tokens joined by the
delimiter.  Inverse of `splitTokens` on delimiter-free tokens. -/
def lineOf (tokens : List String) : String :=
  String.mk (List.intercalate [delimiter] (tokens.map String.data))

/-- Modelled from the spec: the token-level core of the Line Classifier
(spec §4.2).  First token matched against the keyword table; a no-match line
that still has a token before the delimiter is a speech line whose speaker
resolution degrades to the narrator sentinel rather than failing (spec §4.2
fourth bullet); otherwise, and for empty lines, the result is `COMMENT`. -/
def classifyTokens : List String → Command
  | [] => ⟨.COMMENT, []⟩
  | first :: rest =>
    match keywordTable.lookup first with
    | some t => ⟨t, rest⟩
    | none => if rest.isEmpty then ⟨.COMMENT, []⟩ else ⟨.SPEECH, rest⟩

/-- Modelled from the spec: the Line Classifier `classify(rawLine) ->
Command` (spec §4.2); the implementation of `M22Script::CheckLineType`
(declared at `M22Engine.h:465`) is not among the sources. -/
def classify (s : String) : Command :=
  classifyTokens (splitTokens s)

/-- `M22Script::CheckLineType` (declared `M22Engine.h:461-465`): the type of
a raw line, i.e. the kind component of its classification. -/
def M22Script.CheckLineType (s : String) : LINETYPE :=
  (classify s).kind

/-- Modelled from the spec: `M22Engine::GetCharacterIndexFromName` (declared
`M22Engine.h:132-137`, implementation not among the sources).  Header doc:
"Index of character, 0 if narrative"; spec §4.2/§7: the lookup never throws
and an unresolved name degrades to the sentinel narrator/default index 0. -/
def M22Engine.GetCharacterIndexFromName (names : List String) (nm : String) : Nat :=
  match names.findIdx? (fun s => s = nm) with
  | some i => i
  | none => 0

/-- The speaker index a raw line resolves to: its first token looked up in
the character-name table, with the narrator fallback. -/
def speakerIndexOfLine (names : List String) (s : String) : Nat :=
  M22Engine.GetCharacterIndexFromName names ((splitTokens s).headD "")

/-- The wide-string representation the Lua bridge converts its arguments
into (`std::vector<std::wstring> temp` in `M22Lua.cpp`), modelled as the
sequence of the code points of the text. -/
def WString : Type := List Char

/-- Modelled from the spec: `M22Script::to_wstring` (called by
`M22Lua.cpp`, not declared in the header at hand): the narrow-to-wide
conversion, carrying the text code point by code point into the
"wide/Unicode-capable representation" of spec §4.1. -/
def M22Script.to_wstring (s : String) : WString := s.data

/-- The narrow string a wide string denotes (inverse code-point map). -/
def fromWString (w : WString) : String := String.mk w

/-- `M22Script::CheckLineType` applied at a wide argument, as the bridge
does at `M22Lua.cpp:50` (`CheckLineType(temp.at(0))`): classification of the
text the wide string carries. -/
def M22Script.CheckLineTypeW (w : WString) : LINETYPE :=
  M22Script.CheckLineType (fromWString w)

/-- The process-wide engine state the modelled fragment reads and writes.
Every field except `dialogueText` embeds a static member declared in
`M22Engine.h`; `dialogueText` stands for the utterance text most recently
handed to the interface collaborator (`M22Interface` renders
`M22Script::currentLine`; the `showDialogue(speakerIdx, text)`
request, §6). -/
structure M22State where
  /-- `M22Script::currentLine` (`M22Engine.h:428`, a `std::string`). -/
  currentLine : String
  /-- `M22Script::currentLineIndex` (`M22Engine.h:429`, an `int`). -/
  currentLineIndex : Int
  /-- `M22Script::currentScript` (`M22Engine.h:430`). -/
  currentScript : List String
  /-- `M22Script::activeSpeakerIndex` (`M22Engine.h:431`, an `int`). -/
  activeSpeakerIndex : Int
  /-- `M22Graphics::activeTransition` (`M22Engine.h:295`, a `Uint8` index
  into the `TRANSITIONS` enum). -/
  activeTransition : Nat
  /-- `M22Engine::ACTIVE_BACKGROUND_INDEX` (`M22Engine.h:186`). -/
  ACTIVE_BACKGROUND_INDEX : Nat
  /-- `M22Graphics::backgroundIndex` (`M22Engine.h:262`): names of the
  loaded backgrounds, the lookup table for script background names. -/
  backgroundIndex : List String
  /-- `M22Engine::CHARACTER_NAMES` (`M22Engine.h:185`). -/
  CHARACTER_NAMES : List String
  /-- `M22Graphics::activeCharacters` (`M22Engine.h:253`), modelled as the
  resolved character indices of the active slots. -/
  activeCharacters : List Nat
  /-- `M22Engine::QUIT` (`M22Engine.h:130`). -/
  QUIT : Bool
  /-- `M22Engine::GAMESTATE` (`M22Engine.h:195`): `true` while in-game,
  `false` on the main menu. -/
  INGAME : Bool
  /-- `M22Engine::TIMER_TARGET` (`M22Engine.h:193`): the deadline of a
  `WAIT` suspension, in milliseconds. -/
  TIMER_TARGET : Nat
  /-- The named script sources the loader can read (spec §4.1); stands for
  the script files on disk, outside the sources at hand. -/
  scriptFiles : List (String × List String)
  /-- The utterance text last handed to the interface collaborator. -/
  dialogueText : String
  deriving DecidableEq, Repr

/-- `M22Graphics::TRANSITION_NAMES` (declared `M22Engine.h:293`, one name
per `TRANSITIONS` enum value, `M22Engine.h:284-291`).  Modelled from the
spec: the initializer is not among the sources; the names are those of the
enum values themselves, which is what scenario D of the specification
(`"SET_TRANSITION:SWIPE_DOWN"`) uses. -/
def TRANSITION_NAMES : List String :=
  ["SWIPE_TO_RIGHT", "SWIPE_DOWN", "SWIPE_TO_LEFT", "FADEIN"]

/-- Dispatch status `Ok` (spec §4.4); the C++ dispatcher returns an `int`
and `0` is the engine-wide success value (`M22Engine.h` error-code docs). -/
def OK_STATUS : Int := 0

/-- Modelled from the spec: the `MalformedOperand` error of the taxonomy in
§7, as a nonzero status code; only its distinctness from `OK_STATUS` is
relied upon. -/
def ERR_MALFORMED_OPERAND : Int := 1

/-- Modelled from the spec: the `UnknownTransitionName` error of §7, as a
nonzero status code; only its distinctness from `OK_STATUS` is relied
upon. -/
def ERR_UNKNOWN_TRANSITION_NAME : Int := 2

/-- Modelled from the spec: the `LoadError` of §7, as a nonzero status
code. -/
def ERR_LOAD : Int := 3

/-- Modelled from the spec: resolution of a background name against the
loaded background-name table, with the `UnresolvedNameFallback` degradation
to index 0 (spec §7). -/
def resolveBackgroundIndex (table : List String) (nm : String) : Nat :=
  match table.findIdx? (fun s => s = nm) with
  | some i => i
  | none => 0

/-- Modelled from the spec: the `BACKGROUND_CHANGE` dispatch effect (spec
§4.4): resolve the background name and request the graphics collaborator
begin a transition to it; only graphics-side state is touched. -/
def dispatchNewBackground (nm : String) (st : M22State) : Int × M22State :=
  (OK_STATUS, { st with ACTIVE_BACKGROUND_INDEX := resolveBackgroundIndex st.backgroundIndex nm })

/-- Modelled from the spec: `M22Script::ChangeLine` (declared
`M22Engine.h:449-452`, implementation not among the sources): "Changes
currentLine to target line index" — the line index of the cursor becomes the
target and `currentLine` the document line it indexes. -/
def M22Script.ChangeLine (newLine : Int) (st : M22State) : M22State :=
  { st with
    currentLineIndex := newLine,
    currentLine := st.currentScript.getD newLine.toNat "" }

/-- Modelled from the spec: the `BRANCHING` effect of a `JUMP`/`GOTO`
dispatch (spec §4.3): the line index of the Cursor is rewritten to the target
via `M22Script::ChangeLine`, bypassing the sequential increment. -/
def dispatchGoto (target : Int) (st : M22State) : M22State :=
  M22Script.ChangeLine target st

/-- Modelled from the spec: the `SET_TRANSITION` dispatch effect (spec
§4.4): "Parse operand against the fixed transition-name table; update the
process-wide Transition setting; `UnknownTransitionName` if no match" —
on no match the command is rejected and the prior setting retained (§7). -/
def dispatchSetTransition (op : String) (st : M22State) : Int × M22State :=
  match TRANSITION_NAMES.findIdx? (fun s => s = op) with
  | some i => (OK_STATUS, { st with activeTransition := i })
  | none => (ERR_UNKNOWN_TRANSITION_NAME, st)

/-- Modelled from the spec: the `SPEECH`/`NARRATIVE` dispatch effect (spec
§4.4): resolve the speaker index (narrator if unresolved or absent) and
hand the utterance to the interface collaborator. -/
def dispatchSpeech (speaker : Option String) (text : String) (st : M22State) : Int × M22State :=
  (OK_STATUS,
    { st with
      activeSpeakerIndex :=
        match speaker with
        | some nm => (M22Engine.GetCharacterIndexFromName st.CHARACTER_NAMES nm : Int)
        | none => 0,
      dialogueText := text })

/-- Modelled from the spec: the `LOAD_SCRIPT` dispatch effect (spec
§4.1/§4.3): replace the document wholesale with the freshly loaded one and
reset the cursor to line 0; scene state is preserved; an unreadable source
is a `LoadError`. -/
def dispatchLoadScript (nm : String) (st : M22State) : Int × M22State :=
  match st.scriptFiles.lookup nm with
  | some lines =>
      (OK_STATUS, M22Script.ChangeLine 0 { st with currentScript := lines })
  | none => (ERR_LOAD, st)

/-- Modelled from the spec: the Command Dispatcher
`M22Script::ExecuteM22ScriptCommand(LINETYPE, std::vector<std::wstring>,
int)` — called from `M22Lua.cpp:36` and `M22Lua.cpp:53` but whose
implementation file is not among the sources.  It follows the effect table
of spec §4.4 on the modelled state; the argument vector carries the keyword
(or speaker) at slot 0 and the operands after it, exactly as the bridge
builds it.  Effects that are pure requests to the sound/graphics
collaborators (fades, dimming, audio) leave the modelled state unchanged:
per §4.4 "the Dispatcher itself holds no rendering/audio state". -/
def M22Script.ExecuteM22ScriptCommand (t : LINETYPE) (args : List WString) (idx : Int)
    (st : M22State) : Int × M22State :=
  let operand : Nat → String := fun n => fromWString (args.getD n [])
  match t with
  | .NEW_BACKGROUND => dispatchNewBackground (operand 1) st
  | .FADE_TO_BLACK => (OK_STATUS, st)
  | .FADE_TO_BLACK_FANCY => (OK_STATUS, st)
  | .NEW_MUSIC => (OK_STATUS, st)
  | .DARK_SCREEN => (OK_STATUS, st)
  | .BRIGHT_SCREEN => (OK_STATUS, st)
  | .STOP_MUSIC => (OK_STATUS, st)
  | .PLAY_STING => (OK_STATUS, st)
  | .PLAY_STING_LOOPED => (OK_STATUS, st)
  | .STOP_STING_LOOPED => (OK_STATUS, st)
  | .GOTO =>
      match (operand 1).toInt? with
      | some target => (OK_STATUS, dispatchGoto target st)
      | none => (ERR_MALFORMED_OPERAND, st)
  | .DRAW_CHARACTER =>
      (OK_STATUS, { st with activeCharacters :=
        st.activeCharacters ++ [M22Engine.GetCharacterIndexFromName st.CHARACTER_NAMES (operand 1)] })
  | .CLEAR_CHARACTERS => (OK_STATUS, { st with activeCharacters := [] })
  | .CLEAR_CHARACTERS_BRUTAL => (OK_STATUS, { st with activeCharacters := [] })
  | .DRAW_CHARACTER_BRUTAL =>
      (OK_STATUS, { st with activeCharacters :=
        st.activeCharacters ++ [M22Engine.GetCharacterIndexFromName st.CHARACTER_NAMES (operand 1)] })
  | .LOAD_SCRIPT => dispatchLoadScript (operand 1) st
  | .SPEECH => dispatchSpeech (some (operand 0)) (operand 1) st
  | .COMMENT => (OK_STATUS, st)
  | .WAIT =>
      match (operand 1).toNat? with
      | some ms => (OK_STATUS, { st with TIMER_TARGET := ms })
      | none => (ERR_MALFORMED_OPERAND, st)
  | .EXITGAME => (OK_STATUS, { st with QUIT := true })
  | .SET_ACTIVE_TRANSITION => dispatchSetTransition (operand 1) st
  | .EXITTOMAINMENU => (OK_STATUS, { st with INGAME := false })
  | .NARRATIVE => dispatchSpeech none (operand 1) st

/-- `M22Lua::ChangeBackground` (`M22Lua.cpp:25-38`): build the wide
argument vector `temp = [" ", a]` (a placeholder at the keyword slot 0 and
the background name at operand slot 1), dispatch `NEW_BACKGROUND` through
`M22Script::ExecuteM22ScriptCommand` at `M22Script::currentLineIndex`, and
push the integer result back to the Lua caller. -/
def M22Lua.ChangeBackground (a : String) (st : M22State) : Int × M22State :=
  let temp : List WString := [M22Script.to_wstring " ", M22Script.to_wstring a]
  M22Script.ExecuteM22ScriptCommand LINETYPE.NEW_BACKGROUND temp st.currentLineIndex st

/-- `M22Lua::ExecuteM22ScriptCommand` (`M22Lua.cpp:40-55`): convert each
Lua argument to a wide string, classify `temp.at(0)` with
`M22Script::CheckLineType`, dispatch the full vector through
`M22Script::ExecuteM22ScriptCommand` at `M22Script::currentLineIndex`, and
push the integer result.  `temp.at(0)` throws `std::out_of_range` when no
argument was supplied, modelled as `none`. -/
def M22Lua.ExecuteM22ScriptCommand (args : List String) (st : M22State) :
    Option (Int × M22State) :=
  let temp : List WString := args.map M22Script.to_wstring
  match temp.head? with
  | none => none
  | some first =>
      some (M22Script.ExecuteM22ScriptCommand (M22Script.CheckLineTypeW first) temp
        st.currentLineIndex st)

/-- Modelled from the spec: the single `classifyAndDispatch(text[])` path
of §4.5/§9 as seen from the document interpreter — classify the first
token with the Line Classifier, dispatch the full token sequence through
the Command Dispatcher at the current line index, and yield the integer
dispatch status. -/
def classifyAndDispatch (tokens : List String) (st : M22State) : Int × M22State :=
  M22Script.ExecuteM22ScriptCommand (M22Script.CheckLineType (tokens.headD ""))
    (tokens.map M22Script.to_wstring) st.currentLineIndex st

/-- Modelled from the spec: one document-interpreter dispatch of the
current line (spec §2 data flow: Document → Classifier → Cursor →
Dispatcher): split and classify `currentLine`, then dispatch the full
token sequence. -/
def docStep (st : M22State) : Int × M22State :=
  M22Script.ExecuteM22ScriptCommand (M22Script.CheckLineType st.currentLine)
    ((splitTokens st.currentLine).map M22Script.to_wstring) st.currentLineIndex st

/-- Which storage representation a pipeline station declares for text. -/
inductive TextRepr where
  | byteOriented
  | wideOriented
  deriving DecidableEq, Repr

/-- Representation of `M22Script::currentLine`: `std::string`
(`M22Engine.h:428`) — byte-oriented. -/
def currentLineRepr : TextRepr := .byteOriented

/-- Representation of `M22Script::currentScript`:
`std::vector<std::string>` (`M22Engine.h:430`) — byte-oriented. -/
def currentScriptRepr : TextRepr := .byteOriented

/-- Representation of the argument vector of the Lua bridge:
`std::vector<std::wstring>` (`M22Lua.cpp:31`, `M22Lua.cpp:42`). -/
def bridgeArgsRepr : TextRepr := .wideOriented

/-- The text representations along the Loader → Classifier → Dispatcher
string-handling path, in order: the stored document lines, the current
line, and the dispatch arguments of the bridge. -/
def pipelineReprs : List TextRepr :=
  [currentScriptRepr, currentLineRepr, bridgeArgsRepr]

/-- A concrete engine state used to instantiate the theorems below. -/
def st0 : M22State :=
  { currentLine := "Yuuji:Hello there."
    currentLineIndex := 0
    currentScript := ["Yuuji:Hello there.", "WAIT:1000", "JUMP:0"]
    activeSpeakerIndex := 0
    activeTransition := 3
    ACTIVE_BACKGROUND_INDEX := 0
    backgroundIndex := ["BLACK", "Classroom", "Hallway"]
    CHARACTER_NAMES := ["NARRATOR", "Yuuji"]
    activeCharacters := []
    QUIT := false
    INGAME := true
    TIMER_TARGET := 0
    scriptFiles := [("chapter2", ["COMMENT:chapter two"])]
    dialogueText := "" }

/-- A concrete engine state whose current line is a narrated line with
extended (non-ASCII) characters. -/
def st5 : M22State :=
  { st0 with currentLine := lineOf ["語り手", "こんにちは、世界。"] }

/-!
## Helper lemmas
-/

theorem string_mk_data (s : String) : String.mk s.data = s := rfl

theorem map_mk_map_data (l : List String) : (l.map String.data).map String.mk = l := by
  induction l with
  | nil => rfl
  | cons a l ih => simp [ih]

theorem data_lineOf (ts : List String) :
    (lineOf ts).data = List.intercalate [delimiter] (ts.map String.data) := rfl

theorem splitTokens_lineOf (ts : List String) (h1 : ts ≠ [])
    (h2 : ∀ t ∈ ts, delimiter ∉ t.data) : splitTokens (lineOf ts) = ts := by
  have hx : ∀ l ∈ ts.map String.data, delimiter ∉ l := by
    intro l hl
    obtain ⟨t, ht, rfl⟩ := List.mem_map.mp hl
    exact h2 t ht
  have hls : ts.map String.data ≠ [] := by simpa using h1
  show (List.splitOn delimiter (lineOf ts).data).map String.mk = ts
  rw [data_lineOf, List.splitOn_intercalate (ts.map String.data) delimiter hx hls,
    map_mk_map_data]

theorem lookup_eq_none_of_not_mem_keys {α β : Type} [BEq α] [LawfulBEq α]
    (l : List (α × β)) (a : α) (h : a ∉ l.map Prod.fst) : l.lookup a = none := by
  induction l with
  | nil => rfl
  | cons p l ih =>
    simp only [List.map_cons, List.mem_cons] at h
    push_neg at h
    obtain ⟨h1, h2⟩ := h
    obtain ⟨k, b⟩ := p
    simp only [List.lookup]
    have hak : (a == k) = false := by
      apply beq_eq_false_iff_ne.mpr
      intro hc
      exact h1 hc
    rw [hak]
    exact ih h2

theorem lookup_keywordTable {kw : String} {t : LINETYPE}
    (h : (kw, t) ∈ keywordTable) : keywordTable.lookup kw = some t := by
  have hall : ∀ p ∈ keywordTable, keywordTable.lookup p.1 = some p.2 := by decide
  exact hall (kw, t) h

theorem keyword_delim_free {kw : String} {t : LINETYPE}
    (h : (kw, t) ∈ keywordTable) : delimiter ∉ kw.data := by
  have hall : ∀ p ∈ keywordTable, delimiter ∉ p.1.data := by decide
  exact hall (kw, t) h

theorem classify_lineOf_keyword {kw : String} {t : LINETYPE} (ops : List String)
    (hmem : (kw, t) ∈ keywordTable) (hops : ∀ o ∈ ops, delimiter ∉ o.data) :
    classify (lineOf (kw :: ops)) = ⟨t, ops⟩ := by
  have hsplit : splitTokens (lineOf (kw :: ops)) = kw :: ops := by
    refine splitTokens_lineOf _ (by simp) ?_
    intro x hx
    rcases List.mem_cons.mp hx with rfl | hx
    · exact keyword_delim_free hmem
    · exact hops x hx
  unfold classify
  rw [hsplit]
  simp [classifyTokens, lookup_keywordTable hmem]

theorem classify_lineOf_speech {nm : String} (rest : List String)
    (hkw : nm ∉ keywordTable.map Prod.fst) (hnm : delimiter ∉ nm.data)
    (hrest : ∀ o ∈ rest, delimiter ∉ o.data) (hne : rest ≠ []) :
    classify (lineOf (nm :: rest)) = ⟨.SPEECH, rest⟩ := by
  have hsplit : splitTokens (lineOf (nm :: rest)) = nm :: rest := by
    refine splitTokens_lineOf _ (by simp) ?_
    intro x hx
    rcases List.mem_cons.mp hx with rfl | hx
    · exact hnm
    · exact hrest x hx
  unfold classify
  rw [hsplit]
  simp [classifyTokens, lookup_eq_none_of_not_mem_keys _ _ hkw,
    List.isEmpty_iff, hne]

theorem getCharacterIndex_not_mem (names : List String) (nm : String)
    (h : nm ∉ names) : M22Engine.GetCharacterIndexFromName names nm = 0 := by
  unfold M22Engine.GetCharacterIndexFromName
  have hnone : names.findIdx? (fun s => s = nm) = none := by
    rw [List.findIdx?_eq_none_iff]
    intro x hx
    simp only [decide_eq_false_iff_not]
    intro hc
    exact h (hc ▸ hx)
  rw [hnone]

/-!
## Claim theorems
-/

/-- C1: every argument list handed to the generic Lua bridge entry point
`M22Lua::ExecuteM22ScriptCommand` has its first argument classified by the
same classifier `M22Script::CheckLineType` used for document lines, the
full argument sequence is dispatched immediately through the same
dispatcher `M22Script::ExecuteM22ScriptCommand`, and the integer dispatch
status is returned to the Lua caller — the bridge coincides with the
single `classifyAndDispatch` path of the document interpreter on the same
tokens. -/
theorem C1_bridge_single_dispatch_path (args : List String) (st : M22State)
    (h : args ≠ []) :
    M22Lua.ExecuteM22ScriptCommand args st = some (classifyAndDispatch args st)
      ∧ M22Lua.ExecuteM22ScriptCommand args st
        = some (M22Script.ExecuteM22ScriptCommand
            (M22Script.CheckLineType (args.headD ""))
            (args.map M22Script.to_wstring) st.currentLineIndex st) := by
  obtain ⟨a, l, rfl⟩ := List.exists_cons_of_ne_nil h
  exact ⟨rfl, rfl⟩

/-- C1, witnessed at a concrete two-token command. -/
theorem C1_bridge_single_dispatch_path_witness :
    M22Lua.ExecuteM22ScriptCommand ["SET_TRANSITION", "FADEIN"] st0
      = some (classifyAndDispatch ["SET_TRANSITION", "FADEIN"] st0) :=
  (C1_bridge_single_dispatch_path ["SET_TRANSITION", "FADEIN"] st0
    (List.cons_ne_nil _ _)).1

/-- C2: the Lua bridge shorthand `M22Lua::ChangeBackground` synthesizes a
`NEW_BACKGROUND` command whose background-name operand is its text
argument `a`, placed at operand slot 1 (after the keyword slot 0
placeholder), dispatches it immediately through
`M22Script::ExecuteM22ScriptCommand`, and returns the integer dispatch
status: the whole call equals the `BACKGROUND_CHANGE` dispatch effect
applied to `a`. -/
theorem C2_change_background_shorthand (a : String) (st : M22State) :
    M22Lua.ChangeBackground a st
        = M22Script.ExecuteM22ScriptCommand LINETYPE.NEW_BACKGROUND
            [M22Script.to_wstring " ", M22Script.to_wstring a]
            st.currentLineIndex st
      ∧ [M22Script.to_wstring " ", M22Script.to_wstring a].getD 1 []
          = M22Script.to_wstring a
      ∧ M22Lua.ChangeBackground a st = dispatchNewBackground a st :=
  ⟨rfl, rfl, rfl⟩

/-- C9: the shorthand background change from the Lua bridge is out of band
with respect to the document interpreter — it leaves the Execution Cursor
state (`currentLineIndex`, `currentLine`, `currentScript`) unchanged; only
the graphics-side background state changes. -/
theorem C9_change_background_out_of_band (a : String) (st : M22State) :
    ((M22Lua.ChangeBackground a st).2).currentLineIndex = st.currentLineIndex
      ∧ ((M22Lua.ChangeBackground a st).2).currentLine = st.currentLine
      ∧ ((M22Lua.ChangeBackground a st).2).currentScript = st.currentScript
      ∧ (M22Lua.ChangeBackground a st).2
          = { st with ACTIVE_BACKGROUND_INDEX :=
                resolveBackgroundIndex st.backgroundIndex a } :=
  ⟨rfl, rfl, rfl, rfl⟩

/-- C10: the generic Lua bridge entry point requires at least one
argument: with zero arguments the `temp.at(0)` access at `M22Lua.cpp:50`
is out of range (modelled `none`), and with at least one argument every
vector access in the function is in bounds, so the call produces a
result. -/
theorem C10_bridge_requires_one_argument (args : List String) (st : M22State) :
    (args = [] → M22Lua.ExecuteM22ScriptCommand args st = none)
      ∧ (args ≠ [] → (M22Lua.ExecuteM22ScriptCommand args st).isSome = true) := by
  constructor
  · rintro rfl
    rfl
  · intro h
    obtain ⟨a, l, rfl⟩ := List.exists_cons_of_ne_nil h
    rfl

/-- C10, witnessed at the empty and a one-element argument list. -/
theorem C10_bridge_requires_one_argument_witness :
    M22Lua.ExecuteM22ScriptCommand [] st0 = none
      ∧ (M22Lua.ExecuteM22ScriptCommand ["EXIT_GAME"] st0).isSome = true :=
  ⟨(C10_bridge_requires_one_argument [] st0).1 rfl,
   (C10_bridge_requires_one_argument ["EXIT_GAME"] st0).2 (List.cons_ne_nil _ _)⟩

/-- C3: for every keyword of the CommandKind keyword table and every
delimiter-free operand token sequence, classifying the line formed of the
keyword, the delimiter and the operands yields exactly that kind with the
operands as the token sequence after the keyword; moreover the kind set is
the closed 23-element set enumerated by the spec, in bijection with the
23-value `LINETYPE` enum of the code, and the keyword count of 22 matches
both: the 22 table entries plus the keywordless `COMMENT` fallback exhaust
the enumeration without repetition. -/
theorem C3_keyword_classification (kw : String) (t : LINETYPE) (ops : List String)
    (hmem : (kw, t) ∈ keywordTable) (hops : ∀ o ∈ ops, delimiter ∉ o.data) :
    classify (lineOf (kw :: ops)) = ⟨t, ops⟩
      ∧ keywordTable.length = 22
      ∧ specCommandKinds.length = 23
      ∧ LINETYPE.all.length = 23
      ∧ (∀ u : LINETYPE, u ∈ LINETYPE.all)
      ∧ LINETYPE.all.Nodup
      ∧ (keywordTable.map Prod.snd).Nodup
      ∧ (specCommandKinds.map Prod.snd).Nodup
      ∧ (∀ u : LINETYPE, u ∈ specCommandKinds.map Prod.snd)
      ∧ (∀ u : LINETYPE, u ∈ keywordTable.map Prod.snd ∨ u = LINETYPE.COMMENT)
      ∧ LINETYPE.COMMENT ∉ keywordTable.map Prod.snd := by
  refine ⟨classify_lineOf_keyword ops hmem hops, ?_⟩
  decide

/-- C3, witnessed at the `"JUMP:0"` line of scenario A. -/
theorem C3_keyword_classification_witness :
    classify (lineOf ["JUMP", "0"]) = ⟨LINETYPE.GOTO, ["0"]⟩
      ∧ keywordTable.length = 22
      ∧ specCommandKinds.length = 23
      ∧ LINETYPE.all.length = 23
      ∧ (∀ u : LINETYPE, u ∈ LINETYPE.all)
      ∧ LINETYPE.all.Nodup
      ∧ (keywordTable.map Prod.snd).Nodup
      ∧ (specCommandKinds.map Prod.snd).Nodup
      ∧ (∀ u : LINETYPE, u ∈ specCommandKinds.map Prod.snd)
      ∧ (∀ u : LINETYPE, u ∈ keywordTable.map Prod.snd ∨ u = LINETYPE.COMMENT)
      ∧ LINETYPE.COMMENT ∉ keywordTable.map Prod.snd :=
  C3_keyword_classification "JUMP" LINETYPE.GOTO ["0"] (by decide) (by decide)

/-- C4, counterexample: the claim says a line whose first token matches no
CommandKind keyword always classifies as `COMMENT`, but a delimiter line
with an unrecognized first token is a speech line (spec §4.2 fourth bullet,
claim C6): `"Zed"` matches no keyword, yet `"Zed:hi"` classifies as
`SPEECH`, not `COMMENT`. -/
theorem C4_counterexample :
    "Zed" ∉ keywordTable.map Prod.fst
      ∧ (classify "Zed:hi").kind = LINETYPE.SPEECH
      ∧ (classify "Zed:hi").kind ≠ LINETYPE.COMMENT := by
  decide

/-- C4, amended: if the line is empty, or its first token matches no
CommandKind keyword and the line contains no delimiter (so it has no
speaker token either), the classifier returns `COMMENT`; classification is
a total function, so it never fails on any input line. -/
theorem C4_comment_fallback (s : String)
    (hkw : s ∉ keywordTable.map Prod.fst) (hnd : delimiter ∉ s.data) :
    (classify s).kind = LINETYPE.COMMENT
      ∧ classify "" = ⟨LINETYPE.COMMENT, []⟩ := by
  refine ⟨?_, by decide⟩
  have hsplit : splitTokens s = [s] := by
    show (List.splitOn delimiter s.data).map String.mk = [s]
    rw [List.splitOn, List.splitOnP_eq_single]
    · simp [string_mk_data]
    · intro x hx hcontra
      apply hnd
      have hxd : x = delimiter := by simpa using hcontra
      exact hxd ▸ hx
  unfold classify
  rw [hsplit]
  simp [classifyTokens, lookup_eq_none_of_not_mem_keys _ _ hkw]

/-- C4 (amended), witnessed at the empty line and a free-form note line. -/
theorem C4_comment_fallback_witness :
    (classify "free-form authoring note").kind = LINETYPE.COMMENT
      ∧ classify "" = ⟨LINETYPE.COMMENT, []⟩ :=
  C4_comment_fallback "free-form authoring note" (by decide) (by decide)

/-- C5, counterexample: the claim says the whole string-handling path
carries text in a wide/Unicode-capable representation and never a
byte-oriented one, but the document side of the pipeline declares
byte-oriented storage: `M22Script::currentLine` and
`M22Script::currentScript` are `std::string` based (`M22Engine.h:428-430`),
so not every station of the pipeline is wide-oriented. -/
theorem C5_counterexample :
    ¬ (∀ r ∈ pipelineReprs, r = TextRepr.wideOriented) := by
  decide

/-- C5, amended: dialogue text — extended characters included — passes the
modelled Loader → Classifier → Dispatcher path unchanged and reaches the
interface collaborator equal to the source text, but the representation is
not wide end to end: the document path stores lines byte-oriented
(`std::string`), and only the Lua bridge arguments use the wide
representation. -/
theorem C5_text_roundtrip (spk txt : String) (st : M22State)
    (hkw : spk ∉ keywordTable.map Prod.fst)
    (hspk : delimiter ∉ spk.data) (htxt : delimiter ∉ txt.data)
    (hline : st.currentLine = lineOf [spk, txt]) :
    ((docStep st).2).dialogueText = txt
      ∧ currentLineRepr = TextRepr.byteOriented
      ∧ currentScriptRepr = TextRepr.byteOriented
      ∧ bridgeArgsRepr = TextRepr.wideOriented := by
  refine ⟨?_, rfl, rfl, rfl⟩
  have hsplit : splitTokens st.currentLine = [spk, txt] := by
    rw [hline]
    refine splitTokens_lineOf _ (by simp) ?_
    intro x hx
    rcases List.mem_cons.mp hx with rfl | hx
    · exact hspk
    rcases List.mem_cons.mp hx with rfl | hx
    · exact htxt
    simp at hx
  have hkind : M22Script.CheckLineType st.currentLine = LINETYPE.SPEECH := by
    unfold M22Script.CheckLineType classify
    rw [hsplit]
    simp [classifyTokens, lookup_eq_none_of_not_mem_keys _ _ hkw]
  unfold docStep
  rw [hkind, hsplit]
  rfl

/-- C5 (amended), witnessed at a narrated line of non-ASCII (Japanese)
dialogue. -/
theorem C5_text_roundtrip_witness :
    ((docStep st5).2).dialogueText = "こんにちは、世界。"
      ∧ currentLineRepr = TextRepr.byteOriented
      ∧ currentScriptRepr = TextRepr.byteOriented
      ∧ bridgeArgsRepr = TextRepr.wideOriented :=
  C5_text_roundtrip "語り手" "こんにちは、世界。" st5
    (by decide) (by decide) (by decide) rfl

/-- C6: the character-name lookup is total — an unresolved name yields the
sentinel narrator/default index 0 — and a speech line whose speaker token
resolves to no known character still classifies as `SPEECH`, its speaker
index degrading to 0 instead of failing. -/
theorem C6_unresolved_speaker_fallback (names : List String) (nm txt : String)
    (hkw : nm ∉ keywordTable.map Prod.fst)
    (hnm : delimiter ∉ nm.data) (htxt : delimiter ∉ txt.data)
    (hunres : nm ∉ names) :
    M22Engine.GetCharacterIndexFromName names nm = 0
      ∧ (classify (lineOf [nm, txt])).kind = LINETYPE.SPEECH
      ∧ speakerIndexOfLine names (lineOf [nm, txt]) = 0 := by
  have hsplit : splitTokens (lineOf [nm, txt]) = [nm, txt] := by
    refine splitTokens_lineOf _ (by simp) ?_
    intro x hx
    rcases List.mem_cons.mp hx with rfl | hx
    · exact hnm
    rcases List.mem_cons.mp hx with rfl | hx
    · exact htxt
    simp at hx
  refine ⟨getCharacterIndex_not_mem names nm hunres, ?_, ?_⟩
  · unfold classify
    rw [hsplit]
    simp [classifyTokens, lookup_eq_none_of_not_mem_keys _ _ hkw]
  · unfold speakerIndexOfLine
    rw [hsplit]
    exact getCharacterIndex_not_mem names nm hunres

/-- C6, witnessed at an unknown speaker name. -/
theorem C6_unresolved_speaker_fallback_witness :
    M22Engine.GetCharacterIndexFromName ["NARRATOR", "Yuuji"] "Zed" = 0
      ∧ (classify (lineOf ["Zed", "Hello."])).kind = LINETYPE.SPEECH
      ∧ speakerIndexOfLine ["NARRATOR", "Yuuji"] (lineOf ["Zed", "Hello."]) = 0 :=
  C6_unresolved_speaker_fallback ["NARRATOR", "Yuuji"] "Zed" "Hello."
    (by decide) (by decide) (by decide) (by decide)

/-- C7: for every `SET_TRANSITION` dispatch, an operand matching entry `i`
of the fixed transition-name table updates the process-wide active
transition setting to that entry, while an operand matching no entry is
rejected with the `UnknownTransitionName` error and the prior setting is
retained unchanged. -/
theorem C7_set_transition (op : String) (st : M22State) :
    (∀ i : Nat, TRANSITION_NAMES.get? i = some op →
        dispatchSetTransition op st
          = (OK_STATUS, { st with activeTransition := i }))
      ∧ (op ∉ TRANSITION_NAMES →
        dispatchSetTransition op st = (ERR_UNKNOWN_TRANSITION_NAME, st))
      ∧ ERR_UNKNOWN_TRANSITION_NAME ≠ OK_STATUS := by
  refine ⟨?_, ?_, by decide⟩
  · intro i hi
    have hlen : i < TRANSITION_NAMES.length := by
      by_contra hge
      rw [List.get?_eq_none.mpr (Nat.le_of_not_lt hge)] at hi
      exact Option.noConfusion hi
    have hlen4 : i < 4 := by simpa [TRANSITION_NAMES] using hlen
    interval_cases i <;>
      simp only [TRANSITION_NAMES, List.get?] at hi <;>
      (injection hi with hi) <;> subst hi <;> rfl
  · intro hmem
    unfold dispatchSetTransition
    have hnone : TRANSITION_NAMES.findIdx? (fun s => s = op) = none := by
      rw [List.findIdx?_eq_none_iff]
      intro x hx
      simp only [decide_eq_false_iff_not]
      intro hc
      exact hmem (hc ▸ hx)
    rw [hnone]

/-- C7, witnessed at scenario D (`SWIPE_DOWN`) and an unknown name. -/
theorem C7_set_transition_witness :
    dispatchSetTransition "SWIPE_DOWN" st0
        = (OK_STATUS, { st0 with activeTransition := 1 })
      ∧ dispatchSetTransition "CROSSFADE" st0
        = (ERR_UNKNOWN_TRANSITION_NAME, st0) :=
  ⟨(C7_set_transition "SWIPE_DOWN" st0).1 1 rfl,
   (C7_set_transition "CROSSFADE" st0).2.1 (by decide)⟩

/-- C8: dispatching a `JUMP`/`GOTO` whose target is the line the cursor is
already on is idempotent under repeated dispatch — after every dispatch
cycle the line index is still that line and the document is untouched, so
classifying that line afterwards yields the same Command as before. -/
theorem C8_jump_self_idempotent (st : M22State) (i : Int)
    (h : st.currentLineIndex = i) (n : Nat) :
    ((dispatchGoto i)^[n] st).currentLineIndex = i
      ∧ ((dispatchGoto i)^[n] st).currentScript = st.currentScript
      ∧ classify (((dispatchGoto i)^[n] st).currentScript.getD i.toNat "")
          = classify (st.currentScript.getD i.toNat "") := by
  induction n with
  | zero => exact ⟨h, rfl, rfl⟩
  | succ n ih =>
    rw [Function.iterate_succ_apply']
    refine ⟨rfl, ?_, ?_⟩
    · exact ih.2.1
    · show classify ((((dispatchGoto i)^[n] st).currentScript).getD i.toNat "")
          = classify (st.currentScript.getD i.toNat "")
      rw [ih.2.1]

/-- C8, witnessed at line 0 of the scenario A document, three cycles. -/
theorem C8_jump_self_idempotent_witness :
    ((dispatchGoto 0)^[3] st0).currentLineIndex = 0
      ∧ ((dispatchGoto 0)^[3] st0).currentScript = st0.currentScript
      ∧ classify (((dispatchGoto 0)^[3] st0).currentScript.getD (0 : Int).toNat "")
          = classify (st0.currentScript.getD (0 : Int).toNat "") :=
  C8_jump_self_idempotent st0 0 rfl 3
